import Mathlib

/- Verification of the store-monitor uptime engine
   (src/store_monitor/calculation.py together with config.py).

   Modelling conventions:
   * Instants (UTC or local) are integers counting microseconds; the origin of
     the local scale is a Monday 00:00, so Python's `datetime.weekday()` is
     `(instant / microsPerDay) % 7` and `datetime.time()` is
     `instant % microsPerDay` (Python `time` objects compare as their
     microsecond-of-day value; `time.min` is 0 and `time.max` is 86399999999).
   * A pytz timezone object is modelled as a function from UTC instants to
     local instants (`Tz`); `pytz.timezone` is a partial map
     `String → Option Tz`, with `none` standing for `UnknownTimeZoneError`.
     Real pytz always resolves `DEFAULT_TIMEZONE = "America/Chicago"`, so the
     `fallbackTz` leg of `resolveTz` is unreachable on the real database.
   * The float accumulators `uptime_minutes` / `downtime_minutes` only ever
     hold whole numbers (they start at 0.0 and are incremented by 1.0), and a
     window never exceeds 10080 minutes, far below the 2^53 exactness bound of
     doubles, so they are modelled as naturals.  The aggregator's float
     arithmetic is modelled over ℚ, with Python's `round` (nearest integer,
     ties to even) as `pyRound`; for the reachable values `n / 60` with
     `n ≤ 10080` the binary-float rounding of the source and the rational
     rounding of the model agree (the nearest rounding boundary is at distance
     at least 1/120000, far above the float error of about 4e-14). -/

/-- Length of one engine bucket (the while loop advances by timedelta(minutes=1)). -/
def microsPerMinute : Int := 60000000

/-- Length of one day in microseconds. -/
def microsPerDay : Int := 86400000000

/-- Value of Python `time.max` (23:59:59.999999) in microseconds of the day. -/
def timeMax : Nat := 86399999999

/-- Python `datetime.weekday()` of a local instant (0 = Monday .. 6 = Sunday). -/
def weekdayOf (local_dt : Int) : Nat := ((local_dt.ediv microsPerDay).emod 7).toNat

/-- Python `datetime.time()` of a local instant, as microseconds of the day. -/
def timeOfDayOf (local_dt : Int) : Nat := (local_dt.emod microsPerDay).toNat

/-- Model of a pytz timezone object: `astimezone` as a map from UTC instants to
local instants. -/
def Tz : Type := Int → Int

/-- Row of the `business_hours` table (models.BusinessHour), times in
microseconds of the local day. -/
structure BusinessHour where
  day_of_week : Nat
  start_time_local : Nat
  end_time_local : Nat
deriving DecidableEq

/-- Row of the `store_status_polls` table (models.StoreStatusPoll). -/
structure StoreStatusPoll where
  timestamp_utc : Int
  status : String
deriving DecidableEq

/-- config.py: `DEFAULT_STORE_STATUS = "inactive"`. -/
def DEFAULT_STORE_STATUS : String := "inactive"

/-- config.py: `DEFAULT_TIMEZONE = "America/Chicago"`. -/
def DEFAULT_TIMEZONE : String := "America/Chicago"

/-- config.py: `POLL_FETCH_BUFFER_HOURS = 1`. -/
def POLL_FETCH_BUFFER_HOURS : Int := 1

/-- calculation.py `get_business_hours_for_store`, with the db query result
passed in as `hours_query`.  The Python dict maps exactly the days 0..6 and is
read through `dict.get(day, [])`, which yields `[]` for any other key: hence
the `day < 7` guard.  With no rows every day gets the single pair
`(time.min, time.max)`; otherwise each row is appended, in query order, to its
day's list. -/
def get_business_hours_for_store (hours_query : List BusinessHour) :
    Nat → List (Nat × Nat) :=
  if hours_query.isEmpty then
    fun day => if day < 7 then [(0, timeMax)] else []
  else
    fun day =>
      if day < 7 then
        (hours_query.filter fun bh => bh.day_of_week == day).map
          fun bh => (bh.start_time_local, bh.end_time_local)
      else []

/-- calculation.py `is_store_open`.  `weekdayOf local_dt` is the source's
`day_of_week`, `timeOfDayOf local_dt` its `current_time`; the source's
`(day_of_week - 1 + 7) % 7` equals `(day_of_week + 6) % 7`. -/
def is_store_open (local_dt : Int) (business_hours_map : Nat → List (Nat × Nat)) : Bool :=
  ((business_hours_map (weekdayOf local_dt)).any fun iv =>
      (iv.1 == 0 && iv.2 == timeMax) ||
      (if iv.1 ≤ iv.2 then
        decide (iv.1 ≤ timeOfDayOf local_dt) && decide (timeOfDayOf local_dt < iv.2)
       else
        decide (iv.1 ≤ timeOfDayOf local_dt)))
  || ((business_hours_map ((weekdayOf local_dt + 6) % 7)).any fun iv =>
      decide (iv.2 < iv.1) && decide (timeOfDayOf local_dt < iv.2))

/-- Loop of calculation.py `get_status_at_time`: scan the polls in list order,
carrying the status of the last poll at an instant ≤ target, stopping at the
first later poll.  (The source's tzinfo localization of naive timestamps is the
identity in this model, where every instant is already absolute.) -/
def statusLoop (target_utc_dt : Int) (last_known_status : String) :
    List StoreStatusPoll → String
  | [] => last_known_status
  | poll :: rest =>
    if poll.timestamp_utc ≤ target_utc_dt then statusLoop target_utc_dt poll.status rest
    else last_known_status

/-- calculation.py `get_status_at_time`. -/
def get_status_at_time (target_utc_dt : Int) (polls : List StoreStatusPoll) : String :=
  statusLoop target_utc_dt DEFAULT_STORE_STATUS polls

/-- Placeholder for pytz's America/Chicago object; only reachable if the
timezone database lacked `DEFAULT_TIMEZONE`, which never happens for real
pytz. -/
def fallbackTz : Tz := fun utc => utc

/-- The `try pytz.timezone(...) except UnknownTimeZoneError` block of
calculation.py `calculate_store_uptime_for_period`. -/
def resolveTz (tzdb : String → Option Tz) (store_timezone_str : String) : Tz :=
  match tzdb store_timezone_str with
  | some tz => tz
  | none => (tzdb DEFAULT_TIMEZONE).getD fallbackTz

/-- The instants visited by the while loop of
`calculate_store_uptime_for_period`, written with fuel so that the function
computes; `bucketStarts_eq` below recovers the loop's defining equation, and
the fuel `(stop - current).toNat` is an upper bound on the remaining
iterations since every iteration advances by a full positive minute. -/
def bucketStartsFuel : Nat → Int → Int → List Int
  | 0, _, _ => []
  | fuel + 1, current, stop =>
    if current < stop then current :: bucketStartsFuel fuel (current + microsPerMinute) stop
    else []

/-- Start instants of the 1-minute buckets the engine's while loop visits. -/
def bucketStarts (interval_start_utc interval_end_utc : Int) : List Int :=
  bucketStartsFuel (interval_end_utc - interval_start_utc).toNat
    interval_start_utc interval_end_utc

/-- Body of the minute loop of `calculate_store_uptime_for_period`; `acc` is
the pair (uptime_minutes, downtime_minutes). -/
def uptimeStep (store_tz : Tz) (business_hours_map : Nat → List (Nat × Nat))
    (polls : List StoreStatusPoll) (acc : Nat × Nat) (current_minute_utc : Int) :
    Nat × Nat :=
  if is_store_open (store_tz current_minute_utc) business_hours_map then
    if get_status_at_time current_minute_utc polls == "active" then (acc.1 + 1, acc.2)
    else (acc.1, acc.2 + 1)
  else acc

/-- calculation.py `calculate_store_uptime_for_period` (the store_id argument
only feeds logging and is omitted). -/
def calculate_store_uptime_for_period (tzdb : String → Option Tz)
    (store_timezone_str : String) (business_hours_map : Nat → List (Nat × Nat))
    (interval_start_utc interval_end_utc : Int) (polls : List StoreStatusPoll) :
    Nat × Nat :=
  let store_tz := resolveTz tzdb store_timezone_str
  (bucketStarts interval_start_utc interval_end_utc).foldl
    (uptimeStep store_tz business_hours_map polls) (0, 0)

/-- Python `round` to an integer: nearest, ties to even. -/
def pyRound (q : ℚ) : ℤ :=
  if q - ⌊q⌋ < 1/2 then ⌊q⌋
  else if 1/2 < q - ⌊q⌋ then ⌊q⌋ + 1
  else if ⌊q⌋ % 2 = 0 then ⌊q⌋ else ⌊q⌋ + 1

/-- Python `round(x, 2)`. -/
def round2 (q : ℚ) : ℚ := (pyRound (q * 100) : ℚ) / 100

/-- Result record of calculation.py `generate_report_data_for_store`. -/
structure ReportRecord where
  store_id : Nat
  uptime_last_hour : ℤ
  uptime_last_day : ℚ
  uptime_last_week : ℚ
  downtime_last_hour : ℤ
  downtime_last_day : ℚ
  downtime_last_week : ℚ
deriving DecidableEq

/-- The poll db query of `generate_report_data_for_store`: keep the polls
between week_ago minus the fetch buffer and the reference time.  `db_polls` is
the table's content for this store in ascending timestamp order (the query's
order_by), which the filter preserves. -/
def queryPolls (reference_time_utc : Int) (db_polls : List StoreStatusPoll) :
    List StoreStatusPoll :=
  let week_ago := reference_time_utc - 7 * microsPerDay
  let poll_query_start_time := week_ago - POLL_FETCH_BUFFER_HOURS * 60 * microsPerMinute
  db_polls.filter fun p =>
    decide (poll_query_start_time ≤ p.timestamp_utc) &&
    decide (p.timestamp_utc ≤ reference_time_utc)

/-- calculation.py `generate_report_data_for_store`, with the db contents for
the store passed in as `hours_rows` and `db_polls`.  The record fields are, in
order: store_id, uptime_last_hour, uptime_last_day, uptime_last_week,
downtime_last_hour, downtime_last_day, downtime_last_week. -/
def generate_report_data_for_store (tzdb : String → Option Tz) (store_id : Nat)
    (store_timezone_str : String) (hours_rows : List BusinessHour)
    (reference_time_utc : Int) (db_polls : List StoreStatusPoll) : ReportRecord :=
  let business_hours_map := get_business_hours_for_store hours_rows
  let hour_ago := reference_time_utc - 60 * microsPerMinute
  let day_ago := reference_time_utc - microsPerDay
  let week_ago := reference_time_utc - 7 * microsPerDay
  let polls := queryPolls reference_time_utc db_polls
  let lh := calculate_store_uptime_for_period tzdb store_timezone_str business_hours_map
    hour_ago reference_time_utc polls
  let ld := calculate_store_uptime_for_period tzdb store_timezone_str business_hours_map
    day_ago reference_time_utc polls
  let lw := calculate_store_uptime_for_period tzdb store_timezone_str business_hours_map
    week_ago reference_time_utc polls
  ⟨store_id,
   pyRound (lh.1 : ℚ),
   round2 ((ld.1 : ℚ) / 60),
   round2 ((lw.1 : ℚ) / 60),
   pyRound (lh.2 : ℚ),
   round2 ((ld.2 : ℚ) / 60),
   round2 ((lw.2 : ℚ) / 60)⟩

/-- Number of loop iterations `get_status_at_time` performs: each iteration
inspects one poll, and the poll that triggers the break counts as one
iteration. -/
def statusScanCost (target_utc_dt : Int) : List StoreStatusPoll → Nat
  | [] => 0
  | poll :: rest =>
    if poll.timestamp_utc ≤ target_utc_dt then 1 + statusScanCost target_utc_dt rest
    else 1

/-- Total number of poll-list iterations across one window scan of
`calculate_store_uptime_for_period` (the timeline is queried exactly on the
open minutes). -/
def windowScanCost (tzdb : String → Option Tz) (store_timezone_str : String)
    (business_hours_map : Nat → List (Nat × Nat))
    (interval_start_utc interval_end_utc : Int) (polls : List StoreStatusPoll) : Nat :=
  let store_tz := resolveTz tzdb store_timezone_str
  (bucketStarts interval_start_utc interval_end_utc).foldl
    (fun acc t => acc +
      (if is_store_open (store_tz t) business_hours_map then statusScanCost t polls
       else 0)) 0

/- Lemmas about the bucket scan. -/

lemma bucketStartsFuel_congr : ∀ (n m : Nat) (s e : Int),
    (e - s).toNat ≤ n → (e - s).toNat ≤ m →
    bucketStartsFuel n s e = bucketStartsFuel m s e := by
  intro n
  induction n with
  | zero =>
    intro m s e hn hm
    have hse : ¬ s < e := by omega
    cases m with
    | zero => rfl
    | succ m => simp [bucketStartsFuel, hse]
  | succ n ih =>
    intro m s e hn hm
    cases m with
    | zero =>
      have hse : ¬ s < e := by omega
      simp [bucketStartsFuel, hse]
    | succ m =>
      by_cases hse : s < e
      · simp only [bucketStartsFuel, if_pos hse]
        have h1 : (e - (s + microsPerMinute)).toNat ≤ n := by
          simp only [microsPerMinute]; omega
        have h2 : (e - (s + microsPerMinute)).toNat ≤ m := by
          simp only [microsPerMinute]; omega
        rw [ih m (s + microsPerMinute) e h1 h2]
      · simp [bucketStartsFuel, hse]

/-- The while loop's defining equation: visit `s`, then continue one minute
later, until the end of the half-open window is reached. -/
lemma bucketStarts_eq (s e : Int) :
    bucketStarts s e = if s < e then s :: bucketStarts (s + microsPerMinute) e else [] := by
  by_cases hse : s < e
  · rw [if_pos hse]
    unfold bucketStarts
    obtain ⟨k, hk⟩ : ∃ k, (e - s).toNat = k + 1 := ⟨(e - s).toNat - 1, by omega⟩
    rw [hk]
    simp only [bucketStartsFuel, if_pos hse]
    congr 1
    apply bucketStartsFuel_congr
    · simp only [microsPerMinute]; omega
    · omega
  · rw [if_neg hse]
    unfold bucketStarts
    have h0 : (e - s).toNat = 0 := by omega
    rw [h0]
    rfl

lemma mem_bucketStarts (s e t : Int) :
    t ∈ bucketStarts s e ↔ ∃ k : Nat, t = s + (k : Int) * microsPerMinute ∧ t < e := by
  suffices h : ∀ (n : Nat) (s : Int), (e - s).toNat ≤ n →
      (t ∈ bucketStarts s e ↔ ∃ k : Nat, t = s + (k : Int) * microsPerMinute ∧ t < e) by
    exact h (e - s).toNat s le_rfl
  intro n
  induction n with
  | zero =>
    intro s hn
    have hse : ¬ s < e := by omega
    rw [bucketStarts_eq, if_neg hse]
    constructor
    · intro hmem
      simp at hmem
    · rintro ⟨k, rfl, hlt⟩
      have hk : (0 : Int) ≤ (k : Int) * microsPerMinute :=
        mul_nonneg (Int.natCast_nonneg k) (by norm_num [microsPerMinute])
      have he : e ≤ s := le_of_not_lt hse
      linarith
  | succ n ih =>
    intro s hn
    by_cases hse : s < e
    · have h2 : (e - (s + microsPerMinute)).toNat ≤ n := by
        simp only [microsPerMinute]
        omega
      rw [bucketStarts_eq, if_pos hse, List.mem_cons, ih (s + microsPerMinute) h2]
      constructor
      · rintro (rfl | ⟨k, rfl, hlt⟩)
        · exact ⟨0, by simp, hse⟩
        · exact ⟨k + 1, by push_cast; ring, hlt⟩
      · rintro ⟨k, rfl, hlt⟩
        cases k with
        | zero => left; simp
        | succ k =>
          right
          refine ⟨k, by push_cast; ring, hlt⟩
    · rw [bucketStarts_eq, if_neg hse]
      constructor
      · intro hmem
        simp at hmem
      · rintro ⟨k, rfl, hlt⟩
        have hk : (0 : Int) ≤ (k : Int) * microsPerMinute :=
          mul_nonneg (Int.natCast_nonneg k) (by norm_num [microsPerMinute])
        have he : e ≤ s := le_of_not_lt hse
        linarith

/- Open-minutes conservation. -/

lemma foldl_uptimeStep_spec (store_tz : Tz) (business_hours_map : Nat → List (Nat × Nat))
    (polls : List StoreStatusPoll) :
    ∀ (l : List Int) (acc : Nat × Nat),
      (l.foldl (uptimeStep store_tz business_hours_map polls) acc).1 +
        (l.foldl (uptimeStep store_tz business_hours_map polls) acc).2
      = acc.1 + acc.2 + l.countP (fun u => is_store_open (store_tz u) business_hours_map) := by
  intro l
  induction l with
  | nil => intro acc; simp
  | cons x xs ih =>
    intro acc
    rw [List.foldl_cons, List.countP_cons, ih]
    cases ho : is_store_open (store_tz x) business_hours_map with
    | false => simp [uptimeStep, ho]
    | true =>
      cases hs : (get_status_at_time x polls == "active") with
      | false => simp [uptimeStep, ho, hs]; omega
      | true => simp [uptimeStep, ho, hs]; omega

/-- C1: for every window, schedule, timezone and sample list, the pair
(uptime_minutes, downtime_minutes) returned by
`calculate_store_uptime_for_period` has non-negative components whose sum is
the number of 1-minute buckets of the half-open window whose start instant,
converted to the store's local time, satisfies `is_store_open`; closed minutes
are counted in neither total. -/
theorem calculate_uptime_open_minutes_conservation (tzdb : String → Option Tz)
    (store_timezone_str : String) (business_hours_map : Nat → List (Nat × Nat))
    (interval_start_utc interval_end_utc : Int) (polls : List StoreStatusPoll) :
    0 ≤ (calculate_store_uptime_for_period tzdb store_timezone_str business_hours_map
          interval_start_utc interval_end_utc polls).1 ∧
    0 ≤ (calculate_store_uptime_for_period tzdb store_timezone_str business_hours_map
          interval_start_utc interval_end_utc polls).2 ∧
    (calculate_store_uptime_for_period tzdb store_timezone_str business_hours_map
        interval_start_utc interval_end_utc polls).1 +
      (calculate_store_uptime_for_period tzdb store_timezone_str business_hours_map
        interval_start_utc interval_end_utc polls).2
    = (bucketStarts interval_start_utc interval_end_utc).countP
        (fun u => is_store_open (resolveTz tzdb store_timezone_str u) business_hours_map) := by
  refine ⟨Nat.zero_le _, Nat.zero_le _, ?_⟩
  unfold calculate_store_uptime_for_period
  rw [foldl_uptimeStep_spec]
  simp

/-- C7: the engine's scan visits exactly the bucket start instants of the
half-open interval: the bucket starting at the window start is included
whenever the window is non-empty, the bucket starting at the window end is
excluded, membership is exactly being a whole number of minutes after the
start and strictly before the end, and `calculate_store_uptime_for_period`
classifies precisely this list of buckets. -/
theorem engine_scan_half_open :
    (∀ s e : Int, s < e → s ∈ bucketStarts s e) ∧
    (∀ s e : Int, e ∉ bucketStarts s e) ∧
    (∀ s e t : Int, t ∈ bucketStarts s e ↔
      ∃ k : Nat, t = s + (k : Int) * microsPerMinute ∧ t < e) ∧
    (∀ (tzdb : String → Option Tz) (str : String) (m : Nat → List (Nat × Nat))
        (s e : Int) (polls : List StoreStatusPoll),
      calculate_store_uptime_for_period tzdb str m s e polls
        = (bucketStarts s e).foldl (uptimeStep (resolveTz tzdb str) m polls) (0, 0)) := by
  refine ⟨?_, ?_, mem_bucketStarts, fun _ _ _ _ _ _ => rfl⟩
  · intro s e hse
    exact (mem_bucketStarts s e s).mpr ⟨0, by simp, hse⟩
  · intro s e hmem
    obtain ⟨k, hk, hlt⟩ := (mem_bucketStarts s e e).mp hmem
    exact lt_irrefl e hlt

/-- Witness for C7 at a concrete one-minute window. -/
theorem engine_scan_half_open_witness :
    (0 : Int) ∈ bucketStarts 0 60000000 ∧ (60000000 : Int) ∉ bucketStarts 0 60000000 :=
  ⟨engine_scan_half_open.1 0 60000000 (by norm_num),
   engine_scan_half_open.2.1 0 60000000⟩

/- Last-observation-carried-forward lemmas. -/

lemma statusLoop_all_later (t : Int) (last : String) :
    ∀ polls : List StoreStatusPoll, (∀ p ∈ polls, t < p.timestamp_utc) →
      statusLoop t last polls = last := by
  intro polls
  induction polls generalizing last with
  | nil => intro _; rfl
  | cons p rest ih =>
    intro h
    have hp := h p (List.mem_cons_self p rest)
    simp only [statusLoop, if_neg (not_le.mpr hp)]

lemma pairwise_get_le :
    ∀ (polls : List StoreStatusPoll),
      List.Pairwise (fun a b => a.timestamp_utc ≤ b.timestamp_utc) polls →
      ∀ (i k : Nat) (hi : i < polls.length) (hk : k < polls.length), i < k →
        (polls.get ⟨i, hi⟩).timestamp_utc ≤ (polls.get ⟨k, hk⟩).timestamp_utc := by
  intro polls
  induction polls with
  | nil => intro _ i k hi; exact absurd hi (Nat.not_lt_zero i)
  | cons p rest ih =>
    intro hsort i k hi hk hik
    cases k with
    | zero => exact absurd hik (Nat.not_lt_zero i)
    | succ k =>
      have hkr : k < rest.length := Nat.lt_of_succ_lt_succ hk
      cases i with
      | zero =>
        exact List.rel_of_pairwise_cons hsort (List.get_mem rest k hkr)
      | succ i =>
        have hir : i < rest.length := Nat.lt_of_succ_lt_succ hi
        exact ih (List.Pairwise.of_cons hsort) i k hir hkr (Nat.lt_of_succ_lt_succ hik)

lemma statusLoop_last_qualifying (t : Int) :
    ∀ (polls : List StoreStatusPoll) (last : String) (j : Nat) (hj : j < polls.length),
      List.Pairwise (fun a b => a.timestamp_utc ≤ b.timestamp_utc) polls →
      (polls.get ⟨j, hj⟩).timestamp_utc ≤ t →
      (∀ (k : Nat) (hk : k < polls.length), j < k → t < (polls.get ⟨k, hk⟩).timestamp_utc) →
      statusLoop t last polls = (polls.get ⟨j, hj⟩).status := by
  intro polls
  induction polls with
  | nil => intro last j hj; exact absurd hj (Nat.not_lt_zero j)
  | cons p rest ih =>
    intro last j hj hsort hjle hlater
    cases j with
    | zero =>
      have hple : p.timestamp_utc ≤ t := hjle
      have hrest : ∀ q ∈ rest, t < q.timestamp_utc := by
        intro q hq
        obtain ⟨⟨k, hk⟩, hget⟩ := List.mem_iff_get.mp hq
        have h1 : t < (rest.get ⟨k, hk⟩).timestamp_utc :=
          hlater (k + 1) (Nat.succ_lt_succ hk) (Nat.succ_pos k)
        rw [hget] at h1
        exact h1
      simp only [statusLoop, if_pos hple]
      exact statusLoop_all_later t p.status rest hrest
    | succ j =>
      have hjr : j < rest.length := Nat.lt_of_succ_lt_succ hj
      have hple : p.timestamp_utc ≤ t := by
        have h1 : p.timestamp_utc ≤ (rest.get ⟨j, hjr⟩).timestamp_utc :=
          List.rel_of_pairwise_cons hsort (List.get_mem rest j hjr)
        exact le_trans h1 hjle
      simp only [statusLoop, if_pos hple]
      exact ih p.status j hjr (List.Pairwise.of_cons hsort) hjle
        (fun k hk hjk => hlater (k + 1) (Nat.succ_lt_succ hk) (Nat.succ_lt_succ hjk))

/-- C2: LOCF correctness of `get_status_at_time` on a non-decreasing sample
list.  An empty list yields the configured default for every query; when every
sample is later than the query the default is returned; when index `j` is the
last index whose instant is ≤ t the status of sample `j` is returned (the
latest qualifying sample); in particular on the bracket
sample_i.time ≤ t < sample_(i+1).time the result is sample_i.status. -/
theorem get_status_at_time_locf :
    (∀ t : Int, get_status_at_time t [] = DEFAULT_STORE_STATUS) ∧
    (∀ (polls : List StoreStatusPoll) (t : Int),
      List.Pairwise (fun a b => a.timestamp_utc ≤ b.timestamp_utc) polls →
      (∀ p ∈ polls, t < p.timestamp_utc) →
      get_status_at_time t polls = DEFAULT_STORE_STATUS) ∧
    (∀ (polls : List StoreStatusPoll) (t : Int) (j : Nat) (hj : j < polls.length),
      List.Pairwise (fun a b => a.timestamp_utc ≤ b.timestamp_utc) polls →
      (polls.get ⟨j, hj⟩).timestamp_utc ≤ t →
      (∀ (k : Nat) (hk : k < polls.length), j < k → t < (polls.get ⟨k, hk⟩).timestamp_utc) →
      get_status_at_time t polls = (polls.get ⟨j, hj⟩).status) ∧
    (∀ (polls : List StoreStatusPoll) (t : Int) (i : Nat) (hi : i + 1 < polls.length),
      List.Pairwise (fun a b => a.timestamp_utc ≤ b.timestamp_utc) polls →
      (polls.get ⟨i, Nat.lt_of_succ_lt hi⟩).timestamp_utc ≤ t →
      t < (polls.get ⟨i + 1, hi⟩).timestamp_utc →
      get_status_at_time t polls = (polls.get ⟨i, Nat.lt_of_succ_lt hi⟩).status) := by
  refine ⟨fun _ => rfl, ?_, ?_, ?_⟩
  · intro polls t hsort hall
    exact statusLoop_all_later t DEFAULT_STORE_STATUS polls hall
  · intro polls t j hj hsort hjle hlater
    exact statusLoop_last_qualifying t polls DEFAULT_STORE_STATUS j hj hsort hjle hlater
  · intro polls t i hi hsort hile hnext
    refine statusLoop_last_qualifying t polls DEFAULT_STORE_STATUS i
      (Nat.lt_of_succ_lt hi) hsort hile ?_
    intro k hk hik
    rcases Nat.lt_or_ge k (i + 2) with hk2 | hk2
    · have hksucc : k = i + 1 := by omega
      have : (⟨k, hk⟩ : Fin polls.length) = ⟨i + 1, hi⟩ := Fin.ext hksucc
      rw [this]
      exact hnext
    · have h1 : (polls.get ⟨i + 1, hi⟩).timestamp_utc ≤ (polls.get ⟨k, hk⟩).timestamp_utc :=
        pairwise_get_le polls hsort (i + 1) k hi hk (by omega)
      exact lt_of_lt_of_le hnext h1

/-- Witness for C2: a concrete two-sample list exercising the default, the
latest-qualifying rule and the bracket rule. -/
theorem get_status_at_time_locf_witness :
    get_status_at_time 5 [] = DEFAULT_STORE_STATUS ∧
    get_status_at_time 5 [⟨10, "active"⟩, ⟨20, "inactive"⟩] = DEFAULT_STORE_STATUS ∧
    get_status_at_time 25 [⟨10, "active"⟩, ⟨20, "inactive"⟩] = "inactive" ∧
    get_status_at_time 15 [⟨10, "active"⟩, ⟨20, "inactive"⟩] = "active" := by
  refine ⟨get_status_at_time_locf.1 5, ?_, ?_, ?_⟩
  · exact get_status_at_time_locf.2.1 [⟨10, "active"⟩, ⟨20, "inactive"⟩] 5
      (by decide) (by decide)
  · exact get_status_at_time_locf.2.2.1 [⟨10, "active"⟩, ⟨20, "inactive"⟩] 25 1
      (by decide) (by decide) (by decide)
      (by intro k hk h1k; have hk2 : k < 2 := hk; omega)
  · exact get_status_at_time_locf.2.2.2 [⟨10, "active"⟩, ⟨20, "inactive"⟩] 15 0
      (by decide) (by decide) (by decide) (by decide)

/-- C5: on a non-decreasing sample list containing two samples with exactly
equal instants ≤ t at positions i < j, with j the last qualifying index,
`get_status_at_time` returns the status of the later-listed duplicate j. -/
theorem get_status_at_time_duplicate_last_wins
    (polls : List StoreStatusPoll) (t : Int) (i j : Nat) (hij : i < j)
    (hj : j < polls.length)
    (hsort : List.Pairwise (fun a b => a.timestamp_utc ≤ b.timestamp_utc) polls)
    (_hdup : (polls.get ⟨i, lt_trans hij hj⟩).timestamp_utc
              = (polls.get ⟨j, hj⟩).timestamp_utc)
    (hqual : (polls.get ⟨j, hj⟩).timestamp_utc ≤ t)
    (hlast : ∀ (k : Nat) (hk : k < polls.length), j < k →
              t < (polls.get ⟨k, hk⟩).timestamp_utc) :
    get_status_at_time t polls = (polls.get ⟨j, hj⟩).status :=
  statusLoop_last_qualifying t polls DEFAULT_STORE_STATUS j hj hsort hqual hlast

/-- Witness for C5: two samples at the same instant 10; at t = 12 the
later-listed one wins. -/
theorem get_status_at_time_duplicate_last_wins_witness :
    get_status_at_time 12 [⟨10, "active"⟩, ⟨10, "inactive"⟩] = "inactive" :=
  get_status_at_time_duplicate_last_wins [⟨10, "active"⟩, ⟨10, "inactive"⟩] 12 0 1
    (by decide) (by decide) (by decide) (by decide) (by decide)
    (by intro k hk h1k; have hk2 : k < 2 := hk; omega)

/- Schedule-predicate lemmas. -/

lemma weekdayOf_lt_7 (x : Int) : weekdayOf x < 7 := by
  unfold weekdayOf
  have h2 : 0 ≤ (x.ediv microsPerDay).emod 7 := Int.emod_nonneg _ (by norm_num)
  have h1 : (x.ediv microsPerDay).emod 7 < 7 := Int.emod_lt_of_pos _ (by norm_num)
  generalize hy : (x.ediv microsPerDay).emod 7 = y at h1 h2 ⊢
  omega

lemma isOpen_empty_hours (local_dt : Int) :
    is_store_open local_dt (get_business_hours_for_store []) = true := by
  have hwd := weekdayOf_lt_7 local_dt
  simp [is_store_open, get_business_hours_for_store, hwd]

/-- C3: with an empty business-hours row set, the schedule built by
`get_business_hours_for_store` makes `is_store_open` true for every query
instant, whatever timezone conversion produced the local instant: the store is
treated as open 24/7. -/
theorem empty_business_hours_always_open (tz : Tz) (utc : Int) :
    is_store_open (tz utc) (get_business_hours_for_store []) = true :=
  isOpen_empty_hours (tz utc)

/-- C4: an interval with start > end on Monday (day 0) makes the store open on
Monday exactly from start onward, open on Tuesday exactly before end (via the
previous-day overnight check), and concretely for the interval
(22:00, 02:00): Monday 23:30 open, Tuesday 01:00 open, Tuesday 03:00 closed. -/
theorem overnight_wrap (st en : Nat) (hovernight : en < st) :
    (∀ x : Int, weekdayOf x = 0 →
      is_store_open x (get_business_hours_for_store [⟨0, st, en⟩])
        = decide (st ≤ timeOfDayOf x)) ∧
    (∀ x : Int, weekdayOf x = 1 →
      is_store_open x (get_business_hours_for_store [⟨0, st, en⟩])
        = decide (timeOfDayOf x < en)) ∧
    is_store_open 84600000000
      (get_business_hours_for_store [⟨0, 79200000000, 7200000000⟩]) = true ∧
    is_store_open 90000000000
      (get_business_hours_for_store [⟨0, 79200000000, 7200000000⟩]) = true ∧
    is_store_open 97200000000
      (get_business_hours_for_store [⟨0, 79200000000, 7200000000⟩]) = false := by
  have hmap0 : get_business_hours_for_store [⟨0, st, en⟩] 0 = [(st, en)] := rfl
  have hmap1 : get_business_hours_for_store [⟨0, st, en⟩] 1 = [] := rfl
  have hmap6 : get_business_hours_for_store [⟨0, st, en⟩] 6 = [] := rfl
  have h0 : (st == 0) = false := by
    simp only [beq_eq_false_iff_ne, ne_eq]
    omega
  have hle : ¬ st ≤ en := by omega
  refine ⟨?_, ?_, by decide, by decide, by decide⟩
  · intro x hx
    unfold is_store_open
    rw [hx]
    have h67 : (0 + 6) % 7 = 6 := by norm_num
    rw [h67, hmap0, hmap6]
    simp [h0, hle]
  · intro x hx
    unfold is_store_open
    rw [hx]
    have h07 : (1 + 6) % 7 = 0 := by norm_num
    rw [h07, hmap1, hmap0]
    simp [hovernight]

/-- Witness for C4: the overnight interval (22:00, 02:00) on Monday applied at
Monday 23:30 through the general start > end characterization. -/
theorem overnight_wrap_witness :
    is_store_open 84600000000
      (get_business_hours_for_store [⟨0, 79200000000, 7200000000⟩])
      = decide ((79200000000 : Nat) ≤ timeOfDayOf 84600000000) :=
  (overnight_wrap 79200000000 7200000000 (by norm_num)).1 84600000000 (by decide)

/- Weekly periodicity. -/

lemma is_store_open_congr (business_hours_map : Nat → List (Nat × Nat)) (x y : Int)
    (hw : weekdayOf x = weekdayOf y) (ht : timeOfDayOf x = timeOfDayOf y) :
    is_store_open x business_hours_map = is_store_open y business_hours_map := by
  unfold is_store_open
  rw [hw, ht]

lemma weekdayOf_add_week (x : Int) : weekdayOf (x + 7 * microsPerDay) = weekdayOf x := by
  unfold weekdayOf
  rw [show ((x + 7 * microsPerDay).ediv microsPerDay) = x.ediv microsPerDay + 7 from
    Int.add_mul_ediv_right x 7 (by norm_num [microsPerDay])]
  rw [show ((x.ediv microsPerDay + 7).emod 7) = (x.ediv microsPerDay).emod 7 from
    Int.add_mul_emod_self_left (x.ediv microsPerDay) 7 1]

lemma timeOfDayOf_add_week (x : Int) :
    timeOfDayOf (x + 7 * microsPerDay) = timeOfDayOf x := by
  unfold timeOfDayOf
  rw [show ((x + 7 * microsPerDay).emod microsPerDay) = x.emod microsPerDay from
    Int.add_mul_emod_self]

/-- C10: the schedule predicate is weekly-periodic: `is_store_open` depends
only on the local day-of-week and time-of-day, so any two local instants
agreeing on both get the same answer, and in particular instants exactly seven
days apart always agree, for every business-hours map. -/
theorem is_store_open_weekly_periodic :
    (∀ (business_hours_map : Nat → List (Nat × Nat)) (x y : Int),
      weekdayOf x = weekdayOf y → timeOfDayOf x = timeOfDayOf y →
      is_store_open x business_hours_map = is_store_open y business_hours_map) ∧
    (∀ (business_hours_map : Nat → List (Nat × Nat)) (x : Int),
      is_store_open (x + 7 * microsPerDay) business_hours_map
        = is_store_open x business_hours_map) :=
  ⟨fun m x y hw ht => is_store_open_congr m x y hw ht,
   fun m x => is_store_open_congr m (x + 7 * microsPerDay) x
     (weekdayOf_add_week x) (timeOfDayOf_add_week x)⟩

/-- Witness for C10: one week apart on a concrete schedule. -/
theorem is_store_open_weekly_periodic_witness :
    is_store_open 604800000000 (get_business_hours_for_store [⟨0, 100, 200⟩])
      = is_store_open 0 (get_business_hours_for_store [⟨0, 100, 200⟩]) :=
  is_store_open_weekly_periodic.1 (get_business_hours_for_store [⟨0, 100, 200⟩])
    604800000000 0 (by decide) (by decide)

/- Rounding lemmas. -/

lemma pyRound_natCast (n : ℕ) : pyRound (n : ℚ) = (n : ℤ) := by
  have hf : ⌊(n : ℚ)⌋ = (n : ℤ) := Int.floor_natCast n
  unfold pyRound
  rw [hf]
  have hz : (n : ℚ) - ((n : ℤ) : ℚ) = 0 := by push_cast; ring
  rw [hz]
  norm_num

lemma abs_pyRound_le_half (q : ℚ) : |(pyRound q : ℚ) - q| ≤ 1 / 2 := by
  have h0 : ((⌊q⌋ : ℤ) : ℚ) ≤ q := Int.floor_le q
  have h1 : q < ((⌊q⌋ : ℤ) : ℚ) + 1 := Int.lt_floor_add_one q
  unfold pyRound
  split_ifs with hlt hgt hev
  · rw [abs_le]
    constructor <;> linarith
  · rw [abs_le]
    push_cast
    constructor <;> linarith
  · rw [abs_le]
    have hge := le_of_not_lt hlt
    have hle2 := le_of_not_lt hgt
    constructor <;> linarith
  · rw [abs_le]
    have hge := le_of_not_lt hlt
    have hle2 := le_of_not_lt hgt
    push_cast
    constructor <;> linarith

lemma abs_round2_le (q : ℚ) : |round2 q - q| ≤ 1 / 200 := by
  have h := abs_pyRound_le_half (q * 100)
  unfold round2
  have h2 : (pyRound (q * 100) : ℚ) / 100 - q = ((pyRound (q * 100) : ℚ) - q * 100) / 100 := by
    ring
  rw [h2, abs_div]
  have h3 : |(100 : ℚ)| = 100 := by norm_num
  rw [h3]
  linarith

/-- C6: the aggregator computes exactly the three windows ending at the
reference instant — last hour [ref − 1h, ref), last day [ref − 24h, ref),
last week [ref − 7d, ref) — on the polls returned by the buffered query; the
last-hour fields equal the engine's minute counts as integers (the source's
int(round(.)) is the identity on them), and the last-day and last-week fields
are the engine's minute counts divided by 60 and rounded to two decimal
places (so each lies within 1/200 of the exact quotient). -/
theorem generate_report_windows_and_units
    (tzdb : String → Option Tz) (store_id : Nat) (store_timezone_str : String)
    (hours_rows : List BusinessHour) (reference_time_utc : Int)
    (db_polls : List StoreStatusPoll) :
    (generate_report_data_for_store tzdb store_id store_timezone_str hours_rows
        reference_time_utc db_polls).uptime_last_hour
      = ((calculate_store_uptime_for_period tzdb store_timezone_str
            (get_business_hours_for_store hours_rows)
            (reference_time_utc - 60 * microsPerMinute) reference_time_utc
            (queryPolls reference_time_utc db_polls)).1 : ℤ) ∧
    (generate_report_data_for_store tzdb store_id store_timezone_str hours_rows
        reference_time_utc db_polls).downtime_last_hour
      = ((calculate_store_uptime_for_period tzdb store_timezone_str
            (get_business_hours_for_store hours_rows)
            (reference_time_utc - 60 * microsPerMinute) reference_time_utc
            (queryPolls reference_time_utc db_polls)).2 : ℤ) ∧
    (generate_report_data_for_store tzdb store_id store_timezone_str hours_rows
        reference_time_utc db_polls).uptime_last_day
      = round2 (((calculate_store_uptime_for_period tzdb store_timezone_str
            (get_business_hours_for_store hours_rows)
            (reference_time_utc - microsPerDay) reference_time_utc
            (queryPolls reference_time_utc db_polls)).1 : ℚ) / 60) ∧
    (generate_report_data_for_store tzdb store_id store_timezone_str hours_rows
        reference_time_utc db_polls).downtime_last_day
      = round2 (((calculate_store_uptime_for_period tzdb store_timezone_str
            (get_business_hours_for_store hours_rows)
            (reference_time_utc - microsPerDay) reference_time_utc
            (queryPolls reference_time_utc db_polls)).2 : ℚ) / 60) ∧
    (generate_report_data_for_store tzdb store_id store_timezone_str hours_rows
        reference_time_utc db_polls).uptime_last_week
      = round2 (((calculate_store_uptime_for_period tzdb store_timezone_str
            (get_business_hours_for_store hours_rows)
            (reference_time_utc - 7 * microsPerDay) reference_time_utc
            (queryPolls reference_time_utc db_polls)).1 : ℚ) / 60) ∧
    (generate_report_data_for_store tzdb store_id store_timezone_str hours_rows
        reference_time_utc db_polls).downtime_last_week
      = round2 (((calculate_store_uptime_for_period tzdb store_timezone_str
            (get_business_hours_for_store hours_rows)
            (reference_time_utc - 7 * microsPerDay) reference_time_utc
            (queryPolls reference_time_utc db_polls)).2 : ℚ) / 60) ∧
    |(generate_report_data_for_store tzdb store_id store_timezone_str hours_rows
        reference_time_utc db_polls).uptime_last_day
      - ((calculate_store_uptime_for_period tzdb store_timezone_str
            (get_business_hours_for_store hours_rows)
            (reference_time_utc - microsPerDay) reference_time_utc
            (queryPolls reference_time_utc db_polls)).1 : ℚ) / 60| ≤ 1 / 200 ∧
    |(generate_report_data_for_store tzdb store_id store_timezone_str hours_rows
        reference_time_utc db_polls).downtime_last_day
      - ((calculate_store_uptime_for_period tzdb store_timezone_str
            (get_business_hours_for_store hours_rows)
            (reference_time_utc - microsPerDay) reference_time_utc
            (queryPolls reference_time_utc db_polls)).2 : ℚ) / 60| ≤ 1 / 200 ∧
    |(generate_report_data_for_store tzdb store_id store_timezone_str hours_rows
        reference_time_utc db_polls).uptime_last_week
      - ((calculate_store_uptime_for_period tzdb store_timezone_str
            (get_business_hours_for_store hours_rows)
            (reference_time_utc - 7 * microsPerDay) reference_time_utc
            (queryPolls reference_time_utc db_polls)).1 : ℚ) / 60| ≤ 1 / 200 ∧
    |(generate_report_data_for_store tzdb store_id store_timezone_str hours_rows
        reference_time_utc db_polls).downtime_last_week
      - ((calculate_store_uptime_for_period tzdb store_timezone_str
            (get_business_hours_for_store hours_rows)
            (reference_time_utc - 7 * microsPerDay) reference_time_utc
            (queryPolls reference_time_utc db_polls)).2 : ℚ) / 60| ≤ 1 / 200 := by
  refine ⟨pyRound_natCast _, pyRound_natCast _, rfl, rfl, rfl, rfl, ?_, ?_, ?_, ?_⟩
  · exact abs_round2_le (((calculate_store_uptime_for_period tzdb store_timezone_str
      (get_business_hours_for_store hours_rows)
      (reference_time_utc - microsPerDay) reference_time_utc
      (queryPolls reference_time_utc db_polls)).1 : ℚ) / 60)
  · exact abs_round2_le (((calculate_store_uptime_for_period tzdb store_timezone_str
      (get_business_hours_for_store hours_rows)
      (reference_time_utc - microsPerDay) reference_time_utc
      (queryPolls reference_time_utc db_polls)).2 : ℚ) / 60)
  · exact abs_round2_le (((calculate_store_uptime_for_period tzdb store_timezone_str
      (get_business_hours_for_store hours_rows)
      (reference_time_utc - 7 * microsPerDay) reference_time_utc
      (queryPolls reference_time_utc db_polls)).1 : ℚ) / 60)
  · exact abs_round2_le (((calculate_store_uptime_for_period tzdb store_timezone_str
      (get_business_hours_for_store hours_rows)
      (reference_time_utc - 7 * microsPerDay) reference_time_utc
      (queryPolls reference_time_utc db_polls)).2 : ℚ) / 60)

/- Unknown-timezone fallback. -/

lemma resolveTz_of_unknown (tzdb : String → Option Tz) (s : String)
    (h : tzdb s = none) :
    resolveTz tzdb s = resolveTz tzdb DEFAULT_TIMEZONE := by
  unfold resolveTz
  rw [h]
  cases hd : tzdb DEFAULT_TIMEZONE with
  | none => simp
  | some tz => simp

lemma calculate_tz_congr (tzdb : String → Option Tz) {a b : String}
    (h : resolveTz tzdb a = resolveTz tzdb b) :
    ∀ (business_hours_map : Nat → List (Nat × Nat)) (s e : Int)
      (polls : List StoreStatusPoll),
      calculate_store_uptime_for_period tzdb a business_hours_map s e polls
        = calculate_store_uptime_for_period tzdb b business_hours_map s e polls := by
  intro m s e polls
  unfold calculate_store_uptime_for_period
  rw [h]

/-- C8: when the site's timezone string is unknown to the timezone database,
the engine does not fail: the whole report computation produces exactly the
record it would produce for a store whose timezone string were the configured
default, America/Chicago.  (In this model every function is total, so no
outcome is an error.) -/
theorem unknown_timezone_falls_back_to_default (tzdb : String → Option Tz)
    (store_timezone_str : String) (h : tzdb store_timezone_str = none)
    (store_id : Nat) (hours_rows : List BusinessHour) (reference_time_utc : Int)
    (db_polls : List StoreStatusPoll) :
    generate_report_data_for_store tzdb store_id store_timezone_str hours_rows
        reference_time_utc db_polls
      = generate_report_data_for_store tzdb store_id DEFAULT_TIMEZONE hours_rows
        reference_time_utc db_polls := by
  unfold generate_report_data_for_store
  simp only [calculate_tz_congr tzdb (resolveTz_of_unknown tzdb store_timezone_str h)]

/-- Witness for C8: a timezone database that knows no zone at all still yields
equal records for an unknown zone string and for the default string. -/
theorem unknown_timezone_falls_back_to_default_witness :
    generate_report_data_for_store (fun _ => none) 1 "Mars/Olympus" [] 0 []
      = generate_report_data_for_store (fun _ => none) 1 DEFAULT_TIMEZONE [] 0 [] :=
  unknown_timezone_falls_back_to_default (fun _ => none) "Mars/Olympus" rfl 1 [] 0 []

/- Cost of the per-minute timeline queries. -/

lemma statusScanCost_all_le (t : Int) :
    ∀ polls : List StoreStatusPoll, (∀ p ∈ polls, p.timestamp_utc ≤ t) →
      statusScanCost t polls = polls.length := by
  intro polls
  induction polls with
  | nil => intro _; rfl
  | cons p rest ih =>
    intro h
    have hp := h p (List.mem_cons_self p rest)
    simp only [statusScanCost, if_pos hp, List.length_cons]
    rw [ih (fun q hq => h q (List.mem_cons_of_mem p hq))]
    omega

lemma foldl_add_const {α : Type} (f : α → Nat) (c : Nat) :
    ∀ (l : List α) (acc : Nat), (∀ x ∈ l, f x = c) →
      l.foldl (fun a x => a + f x) acc = acc + l.length * c := by
  intro l
  induction l with
  | nil => intro acc _; simp
  | cons x xs ih =>
    intro acc h
    rw [List.foldl_cons, ih (acc + f x) (fun y hy => h y (List.mem_cons_of_mem x hy)),
      h x (List.mem_cons_self x xs)]
    simp [List.length_cons]
    ring

/-- Sample list used to exhibit the rescanning cost of the timeline lookups:
three polls at or before the window start. -/
def cexPolls : List StoreStatusPoll :=
  [⟨-120000000, "active"⟩, ⟨-60000000, "inactive"⟩, ⟨0, "active"⟩]

/-- C9 (refuted; the general law and a concrete evaluation): with a 24/7
schedule and every sample at or before the window start, each per-minute
`get_status_at_time` call rescans the entire poll list, so the total number of
poll inspections over the window is window_minutes × samples — the cost a
single forward cursor is supposed to avoid; concretely a 5-minute window over
3 samples costs 15 = 5 × 3 inspections rather than at most 5 + 3. -/
theorem windowScanCost_rescans_from_start :
    (∀ (tzdb : String → Option Tz) (store_timezone_str : String)
        (interval_start_utc interval_end_utc : Int) (polls : List StoreStatusPoll),
      (∀ p ∈ polls, p.timestamp_utc ≤ interval_start_utc) →
      windowScanCost tzdb store_timezone_str (get_business_hours_for_store [])
          interval_start_utc interval_end_utc polls
        = (bucketStarts interval_start_utc interval_end_utc).length * polls.length) ∧
    windowScanCost (fun _ => some fallbackTz) "UTC" (get_business_hours_for_store [])
        0 300000000 cexPolls = 15 ∧
    (bucketStarts 0 (300000000 : Int)).length = 5 ∧
    cexPolls.length = 3 := by
  refine ⟨?_, by decide, by decide, rfl⟩
  intro tzdb str s e polls hpolls
  unfold windowScanCost
  have hopen : ∀ u ∈ bucketStarts s e,
      (if is_store_open (resolveTz tzdb str u) (get_business_hours_for_store [])
        then statusScanCost u polls else 0) = polls.length := by
    intro u hu
    obtain ⟨k, rfl, hlt⟩ := (mem_bucketStarts s e u).mp hu
    rw [if_pos (isOpen_empty_hours _)]
    apply statusScanCost_all_le
    intro p hp
    have h1 := hpolls p hp
    have h2 : (0 : Int) ≤ (k : Int) * microsPerMinute :=
      mul_nonneg (Int.natCast_nonneg k) (by norm_num [microsPerMinute])
    linarith
  rw [foldl_add_const
    (fun u => if is_store_open (resolveTz tzdb str u) (get_business_hours_for_store [])
      then statusScanCost u polls else 0) polls.length (bucketStarts s e) 0 hopen]
  omega

/-- Witness for C9's general law: a single early sample over a two-minute
window is examined once per minute. -/
theorem windowScanCost_rescans_from_start_witness :
    windowScanCost (fun _ => some fallbackTz) "UTC" (get_business_hours_for_store [])
        0 120000000 [⟨-1, "active"⟩]
      = (bucketStarts 0 (120000000 : Int)).length * 1 :=
  windowScanCost_rescans_from_start.1 (fun _ => some fallbackTz) "UTC" 0 120000000
    [⟨-1, "active"⟩] (by decide)
